import Mathlib

/-!
Verification of `generate_icons.py`, a one-shot macOS icon-asset generator.

The program has two parts:

* `create_guitar_icon(size)`: builds a `size × size` transparent RGBA canvas
  and issues a fixed sequence of PIL drawing calls (ellipses, rectangles,
  rounded rectangles) whose coordinates are derived from `scale = size / 512`.
* `generate_icons()`: iterates a fixed table of ten `(size, filename)` pairs,
  creates the output directory with `os.makedirs(..., exist_ok=True)`, renders
  each size and saves it as a PNG.

Embedding notes.

* The canvas is modelled as its dimensions, its initial (background) color and
  the ordered list of draw operations; `pixelColor` replays that list at one
  pixel.  `ImageDraw.Draw(img)` on an RGBA image writes the fill value
  directly into every covered pixel (no alpha blending: blending would require
  `ImageDraw.Draw(img, "RGBA")`), so a later operation simply overwrites an
  earlier one wherever both cover a pixel.
* A filled PIL rectangle covers its bounding box inclusively.  A filled
  ellipse covers the pixels of the closed ellipse inscribed in its bounding
  box; membership is expressed over the integers by clearing denominators.  A
  rounded rectangle covers its box minus the four corner squares that lie
  outside the corner quarter-discs.
* Python's `int(k * scale)` with `scale = size / 512`: both `k * size` and the
  division by the power of two `512` are exact in double precision for all
  relevant magnitudes, and the operands are non-negative, so the truncation
  equals Nat floor division `k * size / 512` (`sc` below).  `//` on
  non-negative Python ints is also Nat floor division.
* The filesystem is a list of created directory paths (as component lists)
  plus saved files; `os.makedirs` with `exist_ok=True` errors only when the
  leaf exists and `exist_ok` is false, and otherwise records the directory and
  all its ancestors.  PNG serialization is lossless, so a saved file is
  modelled by the canvas it encodes.
-/

/-- A straight (non-premultiplied) RGBA color, one byte per channel. -/
structure RGBA where
  r : Nat
  g : Nat
  b : Nat
  a : Nat
deriving DecidableEq

/-- One PIL drawing primitive, with the inclusive bounding box it was given. -/
inductive Shape where
  | ellipse (x0 y0 x1 y1 : Int)
  | rectangle (x0 y0 x1 y1 : Int)
  | roundedRectangle (x0 y0 x1 y1 radius : Int)
deriving DecidableEq

/-- A single `draw.<shape>(..., fill=...)` call. -/
structure Op where
  shape : Shape
  fill : RGBA
deriving DecidableEq

/-- Pixel membership in the closed ellipse inscribed in `[x0, x1] × [y0, y1]`:
`((px - cx) / a)² + ((py - cy) / b)² ≤ 1` with the center `(cx, cy)` at the box
midpoint and semi-axes `a = (x1 - x0) / 2`, `b = (y1 - y0) / 2`, cleared of
denominators. -/
def inEllipse (x0 y0 x1 y1 px py : Int) : Bool :=
  decide ((2 * px - x0 - x1) ^ 2 * (y1 - y0) ^ 2 + (2 * py - y0 - y1) ^ 2 * (x1 - x0) ^ 2
    ≤ (x1 - x0) ^ 2 * (y1 - y0) ^ 2)

/-- Pixel membership in a filled PIL rectangle (inclusive bounds). -/
def inRect (x0 y0 x1 y1 px py : Int) : Bool :=
  decide (x0 ≤ px ∧ px ≤ x1 ∧ y0 ≤ py ∧ py ≤ y1)

/-- Pixel within distance `rad` of a rounded-rectangle corner center. -/
def cornerOk (cx cy rad px py : Int) : Bool :=
  decide ((px - cx) ^ 2 + (py - cy) ^ 2 ≤ rad ^ 2)

/-- Pixel membership in a filled rounded rectangle: inside the box, and inside
the corner quarter-disc whenever the pixel falls in one of the four corner
squares. -/
def inRoundedRect (x0 y0 x1 y1 rad px py : Int) : Bool :=
  inRect x0 y0 x1 y1 px py &&
  (decide (x0 + rad ≤ px) || decide (y0 + rad ≤ py) || cornerOk (x0 + rad) (y0 + rad) rad px py) &&
  (decide (px ≤ x1 - rad) || decide (y0 + rad ≤ py) || cornerOk (x1 - rad) (y0 + rad) rad px py) &&
  (decide (x0 + rad ≤ px) || decide (py ≤ y1 - rad) || cornerOk (x0 + rad) (y1 - rad) rad px py) &&
  (decide (px ≤ x1 - rad) || decide (py ≤ y1 - rad) || cornerOk (x1 - rad) (y1 - rad) rad px py)

/-- Whether a shape covers a pixel. -/
def Shape.covers (s : Shape) (p : Int × Int) : Bool :=
  match s with
  | .ellipse x0 y0 x1 y1 => inEllipse x0 y0 x1 y1 p.1 p.2
  | .rectangle x0 y0 x1 y1 => inRect x0 y0 x1 y1 p.1 p.2
  | .roundedRectangle x0 y0 x1 y1 rad => inRoundedRect x0 y0 x1 y1 rad p.1 p.2

/-- An in-memory RGBA raster: dimensions, the color it was created with, and
the draw operations applied to it, in program order. -/
structure Canvas where
  width : Nat
  height : Nat
  background : RGBA
  ops : List Op
deriving DecidableEq

/-- The color of one pixel after all draw calls: each call overwrites the
pixel with its fill color whenever its shape covers the pixel. -/
def pixelColor (c : Canvas) (p : Int × Int) : RGBA :=
  c.ops.foldl (fun col op => if op.shape.covers p then op.fill else col) c.background

/-- `int(k * scale)` from the source, with `scale = size / 512`: exact
truncating scaling of the base constant `k`. -/
def sc (size k : Nat) : Nat := k * size / 512

/-- Shallow embedding of `create_guitar_icon(size)` (generate_icons.py lines
11-98): the canvas and the exact sequence of draw calls, loops unrolled in
iteration order. -/
def create_guitar_icon (size : Nat) : Canvas :=
  let center_x : Int := (size / 2 : Nat)
  let center_y : Int := (size / 2 : Nat)
  let margin : Int := (sc size 20 : Nat)
  let bg_size : Int := (size : Int) - 2 * margin
  let guitar_width : Nat := sc size 200
  let guitar_height : Nat := sc size 120
  let neck_width : Nat := sc size 200
  let neck_height : Int := (sc size 30 : Nat)
  let head_width : Nat := sc size 280
  let head_height : Int := (sc size 60 : Nat)
  let tuner_size : Nat := sc size 12
  let string_width : Nat := sc size 4
  let sound_hole_radius : Int := (sc size 40 : Nat)
  let inner_radius : Int := (sc size 30 : Nat)
  let note_size : Nat := sc size 16
  { width := size
    height := size
    background := ⟨0, 0, 0, 0⟩
    ops :=
    [ ⟨.ellipse margin margin (margin + bg_size) (margin + bg_size), ⟨102, 126, 234, 255⟩⟩,
      ⟨.ellipse (center_x - ↑(guitar_width / 2)) (center_y - ↑(guitar_height / 2) + ↑(sc size 40))
        (center_x + ↑(guitar_width / 2)) (center_y + ↑(guitar_height / 2) + ↑(sc size 40)),
        ⟨255, 255, 255, 240⟩⟩,
      ⟨.roundedRectangle (center_x - ↑(neck_width / 2)) (center_y - ↑(sc size 160))
        (center_x + ↑(neck_width / 2)) (center_y - ↑(sc size 160) + neck_height)
        ↑(sc size 14), ⟨255, 255, 255, 240⟩⟩,
      ⟨.roundedRectangle (center_x - ↑(head_width / 2)) (center_y - ↑(sc size 200))
        (center_x + ↑(head_width / 2)) (center_y - ↑(sc size 200) + head_height)
        ↑(sc size 30), ⟨255, 255, 255, 240⟩⟩,
      ⟨.ellipse (center_x - ↑(sc size 100) - ↑(tuner_size / 2))
        (center_y - ↑(sc size 170) - ↑(tuner_size / 2))
        (center_x - ↑(sc size 100) + ↑(tuner_size / 2))
        (center_y - ↑(sc size 170) + ↑(tuner_size / 2)), ⟨102, 126, 234, 255⟩⟩,
      ⟨.ellipse (center_x - ↑(sc size 50) - ↑(tuner_size / 2))
        (center_y - ↑(sc size 170) - ↑(tuner_size / 2))
        (center_x - ↑(sc size 50) + ↑(tuner_size / 2))
        (center_y - ↑(sc size 170) + ↑(tuner_size / 2)), ⟨102, 126, 234, 255⟩⟩,
      ⟨.ellipse (center_x + ↑(sc size 50) - ↑(tuner_size / 2))
        (center_y - ↑(sc size 170) - ↑(tuner_size / 2))
        (center_x + ↑(sc size 50) + ↑(tuner_size / 2))
        (center_y - ↑(sc size 170) + ↑(tuner_size / 2)), ⟨102, 126, 234, 255⟩⟩,
      ⟨.ellipse (center_x + ↑(sc size 100) - ↑(tuner_size / 2))
        (center_y - ↑(sc size 170) - ↑(tuner_size / 2))
        (center_x + ↑(sc size 100) + ↑(tuner_size / 2))
        (center_y - ↑(sc size 170) + ↑(tuner_size / 2)), ⟨102, 126, 234, 255⟩⟩,
      ⟨.rectangle (center_x - ↑(sc size 100) - ↑(string_width / 2)) (center_y - ↑(sc size 140))
        (center_x - ↑(sc size 100) + ↑(string_width / 2)) (center_y + ↑(sc size 40)),
        ⟨102, 126, 234, 200⟩⟩,
      ⟨.rectangle (center_x - ↑(sc size 50) - ↑(string_width / 2)) (center_y - ↑(sc size 140))
        (center_x - ↑(sc size 50) + ↑(string_width / 2)) (center_y + ↑(sc size 40)),
        ⟨102, 126, 234, 200⟩⟩,
      ⟨.rectangle (center_x + ↑(sc size 50) - ↑(string_width / 2)) (center_y - ↑(sc size 140))
        (center_x + ↑(sc size 50) + ↑(string_width / 2)) (center_y + ↑(sc size 40)),
        ⟨102, 126, 234, 200⟩⟩,
      ⟨.rectangle (center_x + ↑(sc size 100) - ↑(string_width / 2)) (center_y - ↑(sc size 140))
        (center_x + ↑(sc size 100) + ↑(string_width / 2)) (center_y + ↑(sc size 40)),
        ⟨102, 126, 234, 200⟩⟩,
      ⟨.ellipse (center_x - sound_hole_radius) (center_y - sound_hole_radius + ↑(sc size 40))
        (center_x + sound_hole_radius) (center_y + sound_hole_radius + ↑(sc size 40)),
        ⟨255, 107, 107, 255⟩⟩,
      ⟨.ellipse (center_x - inner_radius) (center_y - inner_radius + ↑(sc size 40))
        (center_x + inner_radius) (center_y + inner_radius + ↑(sc size 40)),
        ⟨255, 255, 255, 255⟩⟩,
      ⟨.ellipse (center_x - ↑(sc size 60) - ↑(note_size / 2))
        (center_y - ↑(sc size 80) - ↑(note_size / 2))
        (center_x - ↑(sc size 60) + ↑(note_size / 2))
        (center_y - ↑(sc size 80) + ↑(note_size / 2)), ⟨255, 107, 107, 255⟩⟩,
      ⟨.rectangle (center_x - ↑(sc size 60) + ↑(note_size / 2) - 2)
        (center_y - ↑(sc size 80) - ↑note_size)
        (center_x - ↑(sc size 60) + ↑(note_size / 2) + 2)
        (center_y - ↑(sc size 80) + ↑(note_size / 2)), ⟨255, 107, 107, 255⟩⟩,
      ⟨.ellipse (center_x + ↑(sc size 60) - ↑(note_size / 2))
        (center_y - ↑(sc size 80) - ↑(note_size / 2))
        (center_x + ↑(sc size 60) + ↑(note_size / 2))
        (center_y - ↑(sc size 80) + ↑(note_size / 2)), ⟨255, 107, 107, 255⟩⟩,
      ⟨.rectangle (center_x + ↑(sc size 60) + ↑(note_size / 2) - 2)
        (center_y - ↑(sc size 80) - ↑note_size)
        (center_x + ↑(sc size 60) + ↑(note_size / 2) + 2)
        (center_y - ↑(sc size 80) + ↑(note_size / 2)), ⟨255, 107, 107, 255⟩⟩ ] }

/-- The draw-call list of one rendering. -/
def iconOps (size : Nat) : List Op := (create_guitar_icon size).ops

/-- Default operation for safe list indexing in statements. -/
def dOp : Op := ⟨.rectangle 0 0 0 0, ⟨0, 0, 0, 0⟩⟩

/-- One `icon.save(path, format)` call of the driver loop. -/
structure SaveEvent where
  path : String
  format : String
  image : Canvas
deriving DecidableEq

/-- Filesystem state: the directories that exist (as component lists) and the
files present, newest first.  Only existence and content matter to the
program. -/
structure FS where
  dirs : List (List String)
  files : List (String × Canvas)
deriving DecidableEq

/-- The non-empty ancestor chain of a directory path, leaf included. -/
def ancestorChain (path : List String) : List (List String) :=
  (List.range path.length).map fun i => path.take (i + 1)

/-- Record a directory and all of its ancestors as created. -/
def mkdirAll (path : List String) (fs : FS) : FS :=
  { fs with dirs := ancestorChain path ++ fs.dirs }

/-- `os.makedirs(path, exist_ok=...)`: raises `FileExistsError` only when the
leaf directory already exists and `exist_ok` is false; otherwise creates the
directory together with any missing ancestors. -/
def makedirs (path : List String) (exist_ok : Bool) (fs : FS) : Except String FS :=
  if path ∈ fs.dirs ∧ exist_ok = false then Except.error "FileExistsError"
  else Except.ok (mkdirAll path fs)

/-- The fixed output directory string of the driver. -/
def output_dir : String := "guitarPlayer/Assets.xcassets/AppIcon.appiconset"

/-- The same directory split into path components, as `os.makedirs` walks it. -/
def output_dir_parts : List String := ["guitarPlayer", "Assets.xcassets", "AppIcon.appiconset"]

/-- The icon size table (generate_icons.py lines 102-113), in source order. -/
def sizes : List (Nat × String) :=
  [ (16, "icon_16x16.png"),
    (32, "icon_16x16@2x.png"),
    (32, "icon_32x32.png"),
    (64, "icon_32x32@2x.png"),
    (128, "icon_128x128.png"),
    (256, "icon_128x128@2x.png"),
    (256, "icon_256x256.png"),
    (512, "icon_256x256@2x.png"),
    (512, "icon_512x512.png"),
    (1024, "icon_512x512@2x.png") ]

/-- Shallow embedding of `generate_icons()` (generate_icons.py lines 100-124):
create the output directory, then for each table entry render the icon and
save it; the returned list is the sequence of save calls, in order. -/
def generate_icons (fs : FS) : Except String (FS × List SaveEvent) :=
  match makedirs output_dir_parts true fs with
  | Except.error e => Except.error e
  | Except.ok fs1 =>
      Except.ok (sizes.foldl
        (fun st e =>
          let icon := create_guitar_icon e.1
          let ev : SaveEvent := ⟨output_dir ++ "/" ++ e.2, "PNG", icon⟩
          ({ st.1 with files := (ev.path, ev.image) :: st.1.files }, st.2 ++ [ev]))
        (fs1, []))

/-- The save calls the driver performs, one per table entry, in table order. -/
def saveTrace : List SaveEvent :=
  sizes.map fun e => ⟨output_dir ++ "/" ++ e.2, "PNG", create_guitar_icon e.1⟩

/-- Default save event for safe list indexing in statements. -/
def dSave : SaveEvent := ⟨"", "", ⟨0, 0, ⟨0, 0, 0, 0⟩, []⟩⟩

/-- A bounding box is well ordered when its corners are: PIL's drawing
primitives raise `ValueError` otherwise. -/
def shapeWF : Shape → Bool
  | .ellipse x0 y0 x1 y1 => decide (x0 ≤ x1 ∧ y0 ≤ y1)
  | .rectangle x0 y0 x1 y1 => decide (x0 ≤ x1 ∧ y0 ≤ y1)
  | .roundedRectangle x0 y0 x1 y1 _ => decide (x0 ≤ x1 ∧ y0 ≤ y1)

/-- One checked drawing step: fails like PIL does on a reversed bounding
box, otherwise records the operation. -/
def drawChecked (acc : Except String (List Op)) (op : Op) : Except String (List Op) :=
  match acc with
  | Except.error e => Except.error e
  | Except.ok l =>
      if shapeWF op.shape then Except.ok (l ++ [op])
      else Except.error "ValueError: coordinate 1 must be greater than coordinate 0"

/-- `create_guitar_icon` with every drawing call validated the way PIL
validates bounding boxes; returns the canvas or the first drawing error. -/
def create_guitar_icon_checked (size : Nat) : Except String Canvas :=
  match (iconOps size).foldl drawChecked (Except.ok []) with
  | Except.error e => Except.error e
  | Except.ok l => Except.ok ⟨size, size, ⟨0, 0, 0, 0⟩, l⟩

/-- Multiply every coordinate of a shape by `k` (exact geometric scaling). -/
def scaleShape (k : Nat) : Shape → Shape
  | .ellipse x0 y0 x1 y1 => .ellipse (k * x0) (k * y0) (k * x1) (k * y1)
  | .rectangle x0 y0 x1 y1 => .rectangle (k * x0) (k * y0) (k * x1) (k * y1)
  | .roundedRectangle x0 y0 x1 y1 rad =>
      .roundedRectangle (k * x0) (k * y0) (k * x1) (k * y1) (k * rad)

/-- Scale a draw call's geometry by `k`, keeping its fill. -/
def scaleOp (k : Nat) (op : Op) : Op := ⟨scaleShape k op.shape, op.fill⟩

/-- The draw list of `create_guitar_icon (512 * k)` as the geometric-scaling
law predicts it from the size-512 rendering — except for the two note stems,
whose horizontal extent is a constant `±2` pixels around the scaled stem
center (so their stroke width stays 4 instead of scaling to `4 * k`).  All
other entries are exact `k`-fold magnifications of the size-512 draw calls. -/
def scaledIconOps (k : Nat) : List Op :=
  [ scaleOp k ⟨.ellipse 20 20 492 492, ⟨102, 126, 234, 255⟩⟩,
    scaleOp k ⟨.ellipse 156 236 356 356, ⟨255, 255, 255, 240⟩⟩,
    scaleOp k ⟨.roundedRectangle 156 96 356 126 14, ⟨255, 255, 255, 240⟩⟩,
    scaleOp k ⟨.roundedRectangle 116 56 396 116 30, ⟨255, 255, 255, 240⟩⟩,
    scaleOp k ⟨.ellipse 150 80 162 92, ⟨102, 126, 234, 255⟩⟩,
    scaleOp k ⟨.ellipse 200 80 212 92, ⟨102, 126, 234, 255⟩⟩,
    scaleOp k ⟨.ellipse 300 80 312 92, ⟨102, 126, 234, 255⟩⟩,
    scaleOp k ⟨.ellipse 350 80 362 92, ⟨102, 126, 234, 255⟩⟩,
    scaleOp k ⟨.rectangle 154 116 158 296, ⟨102, 126, 234, 200⟩⟩,
    scaleOp k ⟨.rectangle 204 116 208 296, ⟨102, 126, 234, 200⟩⟩,
    scaleOp k ⟨.rectangle 304 116 308 296, ⟨102, 126, 234, 200⟩⟩,
    scaleOp k ⟨.rectangle 354 116 358 296, ⟨102, 126, 234, 200⟩⟩,
    scaleOp k ⟨.ellipse 216 256 296 336, ⟨255, 107, 107, 255⟩⟩,
    scaleOp k ⟨.ellipse 226 266 286 326, ⟨255, 255, 255, 255⟩⟩,
    scaleOp k ⟨.ellipse 188 168 204 184, ⟨255, 107, 107, 255⟩⟩,
    ⟨.rectangle (204 * (k : Int) - 2) (160 * (k : Int)) (204 * (k : Int) + 2) (184 * (k : Int)),
      ⟨255, 107, 107, 255⟩⟩,
    scaleOp k ⟨.ellipse 308 168 324 184, ⟨255, 107, 107, 255⟩⟩,
    ⟨.rectangle (324 * (k : Int) - 2) (160 * (k : Int)) (324 * (k : Int) + 2) (184 * (k : Int)),
      ⟨255, 107, 107, 255⟩⟩ ]

/-- Horizontal extent of a shape's bounding box (the stroke width, for the
thin stem rectangles). -/
def shapeWidth : Shape → Int
  | .ellipse x0 _ x1 _ => x1 - x0
  | .rectangle x0 _ x1 _ => x1 - x0
  | .roundedRectangle x0 _ x1 _ _ => x1 - x0

/-- Stroke width of the first note-stem rectangle (draw call 15). -/
def stemWidth (size : Nat) : Int := shapeWidth ((iconOps size).getD 15 dOp).shape

/-- The rendering at the reference size 512 (`scale = 1`), fully evaluated. -/
theorem create_guitar_icon_512_eq :
    create_guitar_icon 512 =
      { width := 512, height := 512, background := ⟨0, 0, 0, 0⟩, ops :=
        [ ⟨.ellipse 20 20 492 492, ⟨102, 126, 234, 255⟩⟩,
          ⟨.ellipse 156 236 356 356, ⟨255, 255, 255, 240⟩⟩,
          ⟨.roundedRectangle 156 96 356 126 14, ⟨255, 255, 255, 240⟩⟩,
          ⟨.roundedRectangle 116 56 396 116 30, ⟨255, 255, 255, 240⟩⟩,
          ⟨.ellipse 150 80 162 92, ⟨102, 126, 234, 255⟩⟩,
          ⟨.ellipse 200 80 212 92, ⟨102, 126, 234, 255⟩⟩,
          ⟨.ellipse 300 80 312 92, ⟨102, 126, 234, 255⟩⟩,
          ⟨.ellipse 350 80 362 92, ⟨102, 126, 234, 255⟩⟩,
          ⟨.rectangle 154 116 158 296, ⟨102, 126, 234, 200⟩⟩,
          ⟨.rectangle 204 116 208 296, ⟨102, 126, 234, 200⟩⟩,
          ⟨.rectangle 304 116 308 296, ⟨102, 126, 234, 200⟩⟩,
          ⟨.rectangle 354 116 358 296, ⟨102, 126, 234, 200⟩⟩,
          ⟨.ellipse 216 256 296 336, ⟨255, 107, 107, 255⟩⟩,
          ⟨.ellipse 226 266 286 326, ⟨255, 255, 255, 255⟩⟩,
          ⟨.ellipse 188 168 204 184, ⟨255, 107, 107, 255⟩⟩,
          ⟨.rectangle 202 160 206 184, ⟨255, 107, 107, 255⟩⟩,
          ⟨.ellipse 308 168 324 184, ⟨255, 107, 107, 255⟩⟩,
          ⟨.rectangle 322 160 326 184, ⟨255, 107, 107, 255⟩⟩ ] } := by
  decide

/-- With `exist_ok=True` the directory creation never fails, whatever the
current filesystem state. -/
theorem makedirs_exist_ok (path : List String) (fs : FS) :
    makedirs path true fs = Except.ok (mkdirAll path fs) := by
  simp [makedirs]

/-- Claim C1: a run of `generate_icons`, from any filesystem state, performs
exactly the ten saves of the icon size table, in table order, under the fixed
output directory, and every saved image measures exactly `size × size`. -/
theorem generate_icons_writes_icon_table (fs : FS) :
    (∃ fs2, generate_icons fs = Except.ok (fs2, saveTrace)) ∧
    saveTrace.map SaveEvent.path =
      [ "guitarPlayer/Assets.xcassets/AppIcon.appiconset/icon_16x16.png",
        "guitarPlayer/Assets.xcassets/AppIcon.appiconset/icon_16x16@2x.png",
        "guitarPlayer/Assets.xcassets/AppIcon.appiconset/icon_32x32.png",
        "guitarPlayer/Assets.xcassets/AppIcon.appiconset/icon_32x32@2x.png",
        "guitarPlayer/Assets.xcassets/AppIcon.appiconset/icon_128x128.png",
        "guitarPlayer/Assets.xcassets/AppIcon.appiconset/icon_128x128@2x.png",
        "guitarPlayer/Assets.xcassets/AppIcon.appiconset/icon_256x256.png",
        "guitarPlayer/Assets.xcassets/AppIcon.appiconset/icon_256x256@2x.png",
        "guitarPlayer/Assets.xcassets/AppIcon.appiconset/icon_512x512.png",
        "guitarPlayer/Assets.xcassets/AppIcon.appiconset/icon_512x512@2x.png" ] ∧
    saveTrace.map SaveEvent.format = List.replicate 10 "PNG" ∧
    ((saveTrace.zip sizes).all fun e =>
      decide (e.1.image.width = e.2.1) && decide (e.1.image.height = e.2.1)) = true := by
  constructor
  · unfold generate_icons
    rw [makedirs_exist_ok]
    exact ⟨_, rfl⟩
  · exact ⟨by decide, by decide, by decide⟩

/-- Claim C2: `create_guitar_icon size` yields a canvas of exactly
`size × size` pixels whose creation color is fully transparent, so every pixel
reads transparent before the first shape is drawn; the renderer is a pure
function of `size`. -/
theorem create_guitar_icon_canvas_spec (size : Nat) (_hs : 0 < size) :
    (create_guitar_icon size).width = size ∧
    (create_guitar_icon size).height = size ∧
    (create_guitar_icon size).background = ⟨0, 0, 0, 0⟩ ∧
    ∀ p : Int × Int,
      pixelColor ⟨size, size, (create_guitar_icon size).background, []⟩ p = ⟨0, 0, 0, 0⟩ :=
  ⟨rfl, rfl, rfl, fun _ => rfl⟩

/-- Witness for C2 at size 512. -/
theorem create_guitar_icon_canvas_spec_witness :
    0 < 512 ∧ (create_guitar_icon 512).width = 512 :=
  ⟨by decide, (create_guitar_icon_canvas_spec 512 (by decide)).1⟩

/-- Claim C3 counterexample: at size 512 the pixel at (256,256) is not the
background fill (102,126,234): the guitar body and then the sound-hole disc
are drawn over the canvas center, so the claimed pair of pixel values is
false. -/
theorem center_pixel_counterexample :
    ¬ (pixelColor (create_guitar_icon 512) (0, 0) = ⟨0, 0, 0, 0⟩ ∧
       pixelColor (create_guitar_icon 512) (256, 256) = ⟨102, 126, 234, 255⟩) := by
  decide

/-- Claim C3 amended: at size 512 the pixel at (0,0) is fully transparent,
and the pixel at (256,256) holds the sound-hole fill (255,107,107) opaque —
the topmost draw call covering the canvas center is the sound-hole disc, not
the background. -/
theorem corner_and_center_pixels :
    pixelColor (create_guitar_icon 512) (0, 0) = ⟨0, 0, 0, 0⟩ ∧
    pixelColor (create_guitar_icon 512) (256, 256) = ⟨255, 107, 107, 255⟩ := by
  decide

/-- Claim C7: the renderer is deterministic — it is a pure function of the
requested size, so two invocations at the same size agree as canvases and on
every pixel. -/
theorem create_guitar_icon_deterministic (size : Nat) (_hs : 0 < size) :
    create_guitar_icon size = create_guitar_icon size ∧
    ∀ p : Int × Int,
      pixelColor (create_guitar_icon size) p = pixelColor (create_guitar_icon size) p :=
  ⟨rfl, fun _ => rfl⟩

/-- Witness for C7 at size 512. -/
theorem create_guitar_icon_deterministic_witness :
    0 < 512 ∧ create_guitar_icon 512 = create_guitar_icon 512 :=
  ⟨by decide, (create_guitar_icon_deterministic 512 (by decide)).1⟩

/-- Claim C8: creating the output directory succeeds from any filesystem
state (in particular when the directory already exists), records the
directory together with all its ancestors, touches no files, and re-running
the creation raises no error either. -/
theorem makedirs_idempotent_create (fs : FS) :
    makedirs output_dir_parts true fs = Except.ok (mkdirAll output_dir_parts fs) ∧
    ((ancestorChain output_dir_parts).all
      fun q => decide (q ∈ (mkdirAll output_dir_parts fs).dirs)) = true ∧
    (mkdirAll output_dir_parts fs).files = fs.files ∧
    makedirs output_dir_parts true (mkdirAll output_dir_parts fs) =
      Except.ok (mkdirAll output_dir_parts (mkdirAll output_dir_parts fs)) := by
  refine ⟨makedirs_exist_ok _ _, ?_, rfl, makedirs_exist_ok _ _⟩
  have hchain : ancestorChain output_dir_parts =
      [ ["guitarPlayer"], ["guitarPlayer", "Assets.xcassets"],
        ["guitarPlayer", "Assets.xcassets", "AppIcon.appiconset"] ] := by decide
  simp [mkdirAll, hchain, List.all_cons, List.mem_append, List.mem_cons]

/-- Claim C10: table entries sharing a pixel size save pixel-identical images
under distinct filenames: entry pairs (1,2) at 32 px, (5,6) at 256 px and
(7,8) at 512 px of the save trace carry equal canvases and so agree on every
pixel. -/
theorem duplicate_sizes_identical_images :
    ((saveTrace.getD 1 dSave).image = (saveTrace.getD 2 dSave).image ∧
     (saveTrace.getD 1 dSave).path ≠ (saveTrace.getD 2 dSave).path) ∧
    ((saveTrace.getD 5 dSave).image = (saveTrace.getD 6 dSave).image ∧
     (saveTrace.getD 5 dSave).path ≠ (saveTrace.getD 6 dSave).path) ∧
    ((saveTrace.getD 7 dSave).image = (saveTrace.getD 8 dSave).image ∧
     (saveTrace.getD 7 dSave).path ≠ (saveTrace.getD 8 dSave).path) ∧
    ∀ p : Int × Int,
      pixelColor (saveTrace.getD 1 dSave).image p = pixelColor (saveTrace.getD 2 dSave).image p ∧
      pixelColor (saveTrace.getD 5 dSave).image p = pixelColor (saveTrace.getD 6 dSave).image p ∧
      pixelColor (saveTrace.getD 7 dSave).image p = pixelColor (saveTrace.getD 8 dSave).image p := by
  exact ⟨⟨rfl, by decide⟩, ⟨rfl, by decide⟩, ⟨rfl, by decide⟩, fun _ => ⟨rfl, rfl, rfl⟩⟩

/-- Helper: folding checked draws over well-formed operations never fails and
records the operations in order. -/
theorem drawChecked_all_ok (l : List Op) (h : (l.all fun op => shapeWF op.shape) = true) :
    ∀ acc : List Op, l.foldl drawChecked (Except.ok acc) = Except.ok (acc ++ l) := by
  induction l with
  | nil => intro acc; simp
  | cons x xs ih =>
      intro acc
      simp only [List.all_cons, Bool.and_eq_true] at h
      rw [List.foldl_cons, show drawChecked (Except.ok acc) x = Except.ok (acc ++ [x]) by
        simp [drawChecked, h.1], ih h.2]
      simp

/-- Claim C9: at every positive size — including the small ones where scaled
dimensions truncate to 0 — each drawn shape's bounding box satisfies
`x0 ≤ x1 ∧ y0 ≤ y1`, so the checked renderer, which fails exactly where PIL
would reject a bounding box, returns the canvas without raising. -/
theorem icon_shapes_well_formed (size : Nat) (_hs : 0 < size) :
    ((iconOps size).all fun op => shapeWF op.shape) = true ∧
    create_guitar_icon_checked size = Except.ok (create_guitar_icon size) := by
  have hall : ((iconOps size).all fun op => shapeWF op.shape) = true := by
    simp only [iconOps, create_guitar_icon, List.all_cons, List.all_nil, shapeWF, sc,
      Bool.and_eq_true, decide_eq_true_eq, and_true]
    repeat' apply And.intro
    all_goals
      first
      | omega
      | linarith [Int.ofNat_nonneg (200 * size / 512 / 2), Int.ofNat_nonneg (120 * size / 512 / 2),
          Int.ofNat_nonneg (280 * size / 512 / 2), Int.ofNat_nonneg (12 * size / 512 / 2),
          Int.ofNat_nonneg (4 * size / 512 / 2), Int.ofNat_nonneg (16 * size / 512 / 2),
          Int.ofNat_nonneg (16 * size / 512), Int.ofNat_nonneg (140 * size / 512),
          Int.ofNat_nonneg (40 * size / 512), Int.ofNat_nonneg (30 * size / 512),
          Int.ofNat_nonneg (60 * size / 512)]
  refine ⟨hall, ?_⟩
  unfold create_guitar_icon_checked
  rw [drawChecked_all_ok _ hall []]
  rfl

/-- Witness for C9 at size 16, where the scaled string width, tuner diameter,
corner radii and inner sound-hole radius all truncate to 0. -/
theorem icon_shapes_well_formed_witness :
    (0 < 16 ∧ ((iconOps 16).all fun op => shapeWF op.shape) = true) ∧
    sc 16 4 = 0 ∧ sc 16 12 = 0 ∧ sc 16 14 = 0 ∧ sc 16 30 = 0 :=
  ⟨⟨by decide, (icon_shapes_well_formed 16 (by decide)).1⟩, by decide, by decide, by decide,
    by decide⟩

/-- Draw call 15 (first note stem) at any size, read off the rendering. -/
theorem iconOps_getD_15 (size : Nat) :
    (iconOps size).getD 15 dOp =
      ⟨.rectangle (↑(size / 2) - ↑(sc size 60) + ↑(sc size 16 / 2) - 2)
        (↑(size / 2) - ↑(sc size 80) - ↑(sc size 16))
        (↑(size / 2) - ↑(sc size 60) + ↑(sc size 16 / 2) + 2)
        (↑(size / 2) - ↑(sc size 80) + ↑(sc size 16 / 2)), ⟨255, 107, 107, 255⟩⟩ := rfl

/-- Draw call 17 (second note stem) at any size, read off the rendering. -/
theorem iconOps_getD_17 (size : Nat) :
    (iconOps size).getD 17 dOp =
      ⟨.rectangle (↑(size / 2) + ↑(sc size 60) + ↑(sc size 16 / 2) - 2)
        (↑(size / 2) - ↑(sc size 80) - ↑(sc size 16))
        (↑(size / 2) + ↑(sc size 60) + ↑(sc size 16 / 2) + 2)
        (↑(size / 2) - ↑(sc size 80) + ↑(sc size 16 / 2)), ⟨255, 107, 107, 255⟩⟩ := rfl

/-- Claim C5 counterexample: the note-stem width is the constant 4, not
`4 * scale`: at size 1024 the scaled width would be 8 but the drawn stem is 4
pixels wide. -/
theorem stem_width_counterexample :
    stemWidth 1024 = 4 ∧ sc 1024 4 = 8 ∧ ¬ stemWidth 1024 = (sc 1024 4 : Nat) := by
  decide

/-- Claim C5 amended: at every positive size the two note glyphs are a filled
(255,107,107) opaque head disc of diameter `2 * (int(16 * scale) // 2)` at
offsets `(∓int(60 * scale), -int(80 * scale))` from the canvas center, plus a
filled stem rectangle reaching from `int(16 * scale)` above to
`int(16 * scale) // 2` below the head center, horizontally pinned at a
constant 2 pixels either side of the head's right edge — a constant stroke
width of 4, not `4 * scale`. -/
theorem note_glyph_geometry (size : Nat) (_hs : 0 < size) :
    (iconOps size).getD 14 dOp =
      ⟨.ellipse (↑(size / 2) - ↑(sc size 60) - ↑(sc size 16 / 2))
        (↑(size / 2) - ↑(sc size 80) - ↑(sc size 16 / 2))
        (↑(size / 2) - ↑(sc size 60) + ↑(sc size 16 / 2))
        (↑(size / 2) - ↑(sc size 80) + ↑(sc size 16 / 2)), ⟨255, 107, 107, 255⟩⟩ ∧
    (iconOps size).getD 15 dOp =
      ⟨.rectangle (↑(size / 2) - ↑(sc size 60) + ↑(sc size 16 / 2) - 2)
        (↑(size / 2) - ↑(sc size 80) - ↑(sc size 16))
        (↑(size / 2) - ↑(sc size 60) + ↑(sc size 16 / 2) + 2)
        (↑(size / 2) - ↑(sc size 80) + ↑(sc size 16 / 2)), ⟨255, 107, 107, 255⟩⟩ ∧
    (iconOps size).getD 16 dOp =
      ⟨.ellipse (↑(size / 2) + ↑(sc size 60) - ↑(sc size 16 / 2))
        (↑(size / 2) - ↑(sc size 80) - ↑(sc size 16 / 2))
        (↑(size / 2) + ↑(sc size 60) + ↑(sc size 16 / 2))
        (↑(size / 2) - ↑(sc size 80) + ↑(sc size 16 / 2)), ⟨255, 107, 107, 255⟩⟩ ∧
    (iconOps size).getD 17 dOp =
      ⟨.rectangle (↑(size / 2) + ↑(sc size 60) + ↑(sc size 16 / 2) - 2)
        (↑(size / 2) - ↑(sc size 80) - ↑(sc size 16))
        (↑(size / 2) + ↑(sc size 60) + ↑(sc size 16 / 2) + 2)
        (↑(size / 2) - ↑(sc size 80) + ↑(sc size 16 / 2)), ⟨255, 107, 107, 255⟩⟩ ∧
    stemWidth size = 4 ∧
    shapeWidth ((iconOps size).getD 17 dOp).shape = 4 := by
  refine ⟨rfl, rfl, rfl, rfl, ?_, ?_⟩
  · simp only [stemWidth, iconOps_getD_15 size, shapeWidth]
    omega
  · simp only [iconOps_getD_17 size, shapeWidth]
    omega

/-- Witness for the amended C5 at the reference size 512. -/
theorem note_glyph_geometry_witness : 0 < 512 ∧ stemWidth 512 = 4 :=
  ⟨by decide, (note_glyph_geometry 512 (by decide)).2.2.2.2.1⟩

/-- Claim C4 counterexample: the note-stem stroke width does not scale.  With
`s1 = 512` and `s2 = 2048` both scale factors are exact (no integer
truncation at all), yet the stem is 4 pixels wide at both sizes where scaling
predicts 16; the deviation exceeds even a two-pixel rounding tolerance in
each image's own scale. -/
theorem stem_scaling_counterexample :
    stemWidth 512 = 4 ∧ stemWidth 2048 = 4 ∧
    ¬ |stemWidth 2048 * 512 - stemWidth 512 * 2048| ≤ 2 * (512 + 2048) := by
  decide

/-- Claim C4 amended: for every multiple `512 * k` of the reference size —
where the scale factor is exact and truncation contributes nothing — the draw
list of `create_guitar_icon (512 * k)` is the `k`-fold magnification of the
size-512 draw list in every coordinate, radius and stroke width, except for
the two note-stem rectangles, whose horizontal extent stays a constant
`±2` pixels around the scaled stem center (constant stroke width 4). -/
theorem icon_scaling_law (k : Nat) (_hk : 0 < k) :
    iconOps (512 * k) = scaledIconOps k := by
  simp only [iconOps, create_guitar_icon, scaledIconOps, scaleOp, scaleShape, sc]
  simp only [List.cons.injEq, Op.mk.injEq, Shape.ellipse.injEq, Shape.rectangle.injEq,
    Shape.roundedRectangle.injEq, RGBA.mk.injEq, and_true, true_and, and_self]
  omega

/-- Witness for the amended C4 at `k = 2` (size 1024). -/
theorem icon_scaling_law_witness : 0 < 2 ∧ iconOps 1024 = scaledIconOps 2 :=
  ⟨by decide, icon_scaling_law 2 (by decide)⟩

/-- Helper: integer square-root style bound, used to turn the disc hypothesis
into coordinate bounds. -/
theorem sq_le_bound {q b : Int} (hb : 0 ≤ b) (h : q ^ 2 ≤ b ^ 2) : -b ≤ q ∧ q ≤ b := by
  constructor <;> nlinarith [sq_nonneg (q + b), sq_nonneg (q - b)]

/-- Claim C6: the sound hole is draw call 12, a filled opaque (255,107,107)
disc of radius 40 centered 40 pixels below the canvas center of the 512-pixel
rendering, overlaid by draw call 13, a filled opaque white disc of radius 30
at the same center; consequently every pixel within distance 30 of that
center renders fully opaque white and every pixel at distance in (30, 40]
renders opaque red, so the white interior is completely surrounded by the red
ring between the two radii. -/
theorem sound_hole_ring (px py : Int)
    (h : (px - 256) ^ 2 + (py - 296) ^ 2 ≤ 1600) :
    (iconOps 512).getD 12 dOp = ⟨.ellipse 216 256 296 336, ⟨255, 107, 107, 255⟩⟩ ∧
    (iconOps 512).getD 13 dOp = ⟨.ellipse 226 266 286 326, ⟨255, 255, 255, 255⟩⟩ ∧
    ((px - 256) ^ 2 + (py - 296) ^ 2 ≤ 900 →
      pixelColor (create_guitar_icon 512) (px, py) = ⟨255, 255, 255, 255⟩) ∧
    (900 < (px - 256) ^ 2 + (py - 296) ^ 2 →
      pixelColor (create_guitar_icon 512) (px, py) = ⟨255, 107, 107, 255⟩) := by
  have hq : (py - 296) ^ 2 ≤ 40 ^ 2 := by nlinarith [sq_nonneg (px - 256)]
  have hy := sq_le_bound (by norm_num) hq
  have hy1 : 256 ≤ py := by omega
  have h17 : inRect 322 160 326 184 px py = false := by
    simp only [inRect, decide_eq_false_iff_not]
    omega
  have h15 : inRect 202 160 206 184 px py = false := by
    simp only [inRect, decide_eq_false_iff_not]
    omega
  have h16 : inEllipse 308 168 324 184 px py = false := by
    simp only [inEllipse, decide_eq_false_iff_not, not_le]
    nlinarith [sq_nonneg (2 * px - 632), sq_nonneg (2 * py - 512), hy1]
  have h14 : inEllipse 188 168 204 184 px py = false := by
    simp only [inEllipse, decide_eq_false_iff_not, not_le]
    nlinarith [sq_nonneg (2 * px - 392), sq_nonneg (2 * py - 512), hy1]
  refine ⟨by decide, by decide, fun hin => ?_, fun hout => ?_⟩
  · have h13 : inEllipse 226 266 286 326 px py = true := by
      simp only [inEllipse, decide_eq_true_eq]
      nlinarith [hin]
    rw [create_guitar_icon_512_eq]
    simp only [pixelColor, List.foldl_cons, List.foldl_nil, Shape.covers]
    simp [h13, h14, h15, h16, h17]
  · have h13 : inEllipse 226 266 286 326 px py = false := by
      simp only [inEllipse, decide_eq_false_iff_not, not_le]
      nlinarith [hout]
    have h12 : inEllipse 216 256 296 336 px py = true := by
      simp only [inEllipse, decide_eq_true_eq]
      nlinarith [h]
    rw [create_guitar_icon_512_eq]
    simp only [pixelColor, List.foldl_cons, List.foldl_nil, Shape.covers]
    simp [h12, h13, h14, h15, h16, h17]

/-- Witness for C6: the ring center renders white, the bottom of the outer
radius renders red. -/
theorem sound_hole_ring_witness :
    pixelColor (create_guitar_icon 512) (256, 296) = ⟨255, 255, 255, 255⟩ ∧
    pixelColor (create_guitar_icon 512) (256, 336) = ⟨255, 107, 107, 255⟩ :=
  ⟨(sound_hole_ring 256 296 (by norm_num)).2.2.1 (by norm_num),
   (sound_hole_ring 256 336 (by norm_num)).2.2.2 (by norm_num)⟩
